import Mathlib

/-!
Shallow embedding of the SAFESPACE mental-health assistant's core
orchestration logic (risk assessor, session store, modality handlers,
multimodal composition, voice-synthesis fallback), translated from
`src/models/business_models.py`, `src/controllers/mental_health_controller.py`
and `src/core/audio_processor.py`.

External capability providers (the language-model agent, the vision
analyzer, the transcriber, the two speech synthesizers) are network
services; each call's outcome is passed in as an explicit oracle value
(`Except PyExc α` — `.error` models the call raising an exception).
Confidence scores are modelled as rationals (the code only ever compares
and maxes the exact literals 0.0, 0.8, 0.9, 0.95). Timestamps are not
modelled (no claim mentions them).
-/

namespace SafeSpace

/-- Python exception values (only the constructors the modelled code can raise). -/
inductive PyExc where
  | attributeError (msg : String)
  | valueError (msg : String)
  | keyError (msg : String)
  | exc (msg : String)
  deriving DecidableEq, Repr

/-- Python `pat in s` substring test, as a proposition on the character lists. -/
def occursIn (pat s : String) : Prop := pat.data <:+: s.data

instance (pat s : String) : Decidable (occursIn pat s) :=
  inferInstanceAs (Decidable (pat.data <:+: s.data))

/-- Executable form of Python's `pat in s` substring test. -/
def strContains (s pat : String) : Bool := decide (occursIn pat s)

/-- Python `text.lower()`: characterwise lowercasing.  (Modelled for the
ASCII range, which covers every keyword the assessor compares against;
written over the character list so the kernel can evaluate it.) -/
def str_lower (s : String) : String := String.mk (s.data.map Char.toLower)

/-- `high_risk_keywords` from `RiskAssessment.assess_text_risk`. -/
def high_risk_keywords : List String :=
  ["suicide", "kill myself", "end it all", "want to die",
   "hurt myself", "self harm", "no point", "can't go on"]

/-- `medium_risk_keywords` from `RiskAssessment.assess_text_risk`. -/
def medium_risk_keywords : List String :=
  ["hopeless", "worthless", "give up", "can't cope",
   "everything is wrong", "no one cares", "alone"]

/-- `RiskAssessment.assess_text_risk` (src/models/business_models.py:248-274):
lowercase the text, return 5 on the first high-risk keyword hit, else 3 on
the first medium-risk hit, else 1.  The Python `for`/early-`return` loop is
exactly a short-circuiting `List.any`. -/
def assess_text_risk (text : String) : Int :=
  let text_lower := str_lower text
  if high_risk_keywords.any (fun keyword => strContains text_lower keyword) then 5
  else if medium_risk_keywords.any (fun keyword => strContains text_lower keyword) then 3
  else 1

/-- A Python runtime value of unexpected type, for totality analysis of
`assess_text_risk` (its body calls `text.lower()` unconditionally). -/
inductive PyVal where
  | str (s : String)
  | int (n : Int)
  | bool (b : Bool)
  | none
  deriving DecidableEq, Repr

/-- `value.lower()` under Python dynamic dispatch: only `str` has `lower`. -/
def pyLower : PyVal → Except PyExc String
  | .str s => .ok (str_lower s)
  | .int _ => .error (.attributeError "int object has no attribute lower")
  | .bool _ => .error (.attributeError "bool object has no attribute lower")
  | .none => .error (.attributeError "NoneType object has no attribute lower")

/-- `RiskAssessment.assess_text_risk` run on a dynamically-typed argument,
making the implicit `text.lower()` attribute lookup explicit. -/
def assess_text_risk_dyn (text : PyVal) : Except PyExc Int :=
  match pyLower text with
  | .error e => .error e
  | .ok text_lower =>
    if high_risk_keywords.any (fun keyword => strContains text_lower keyword) then .ok 5
    else if medium_risk_keywords.any (fun keyword => strContains text_lower keyword) then .ok 3
    else .ok 1

/-! ## Data model (src/models/business_models.py) -/

/-- `InteractionType` enum. -/
inductive InteractionType where
  | conversation
  | crisis_intervention
  | breathing_exercise
  | mindfulness
  | art_therapy
  | voice_therapy
  | resource_provision
  deriving DecidableEq, Repr

/-- One entry of `UserSession.conversation_history` (the dict built by
`UserSession.add_interaction`; it never carries a `tool_used` key, so that
key is an `Option` that `add_interaction` leaves `none`).  Timestamps are
not modelled. -/
structure Interaction where
  itype : InteractionType
  content : String
  modality : String
  tool_used : Option String := none
  deriving DecidableEq, Repr

/-- `UserSession` (timestamp and emotional-state fields omitted: external
clock / unused by the modelled operations). -/
structure UserSession where
  session_id : String
  session_type : String := "general"
  conversation_history : List Interaction := []
  risk_level : Int := 1
  deriving DecidableEq, Repr

/-- `TherapeuticResponse`. -/
structure TherapeuticResponse where
  content : String
  response_type : InteractionType
  modality : String := "text"
  tools_used : List String := []
  confidence : ℚ := 0
  follow_up_suggestions : List String := []
  emergency_flag : Bool := false
  deriving DecidableEq, Repr

/-- `ImageAnalysisResult`. -/
structure ImageAnalysisResult where
  image_path : String
  analysis_text : String
  emotional_indicators : List String := []
  therapeutic_insights : List String := []
  recommended_actions : List String := []
  confidence_score : ℚ := 0
  deriving DecidableEq, Repr

/-- `VoiceAnalysisResult`. -/
structure VoiceAnalysisResult where
  audio_path : String
  transcription : String
  stress_indicators : List String := []
  therapeutic_response : String := ""
  urgency_level : Int := 1
  deriving DecidableEq, Repr

/-- `EmergencyAssessment`. -/
structure EmergencyAssessment where
  session_id : String
  risk_level : Int
  indicators : List String := []
  recommended_actions : List String := []
  emergency_contacts : List String := []
  immediate_response : String := ""
  requires_human_intervention : Bool := false
  deriving DecidableEq, Repr

/-- `SessionSummary` (duration omitted: wall-clock). -/
structure SessionSummary where
  session_id : String
  interaction_count : Nat
  modalities_used : List String
  tools_utilized : List String
  key_insights : List String := []
  recommendations : List String := []
  deriving DecidableEq, Repr

/-! ## Request models (src/models/api_models.py) -/

/-- `Query`. -/
structure Query where
  message : String
  session_id : String := "default"
  deriving DecidableEq, Repr

/-- `ImageAnalysisRequest`. -/
structure ImageAnalysisRequest where
  image_path : String
  query : String := "Please analyze this image for mental health insights"
  session_id : String := "default"
  deriving DecidableEq, Repr

/-- `AudioProcessRequest`. -/
structure AudioProcessRequest where
  audio_path : String
  session_id : String := "default"
  transcription_only : Bool := false
  deriving DecidableEq, Repr

/-- `MultimodalRequest` (`query_type` kept as its string value). -/
structure MultimodalRequest where
  text : Option String := none
  image_path : Option String := none
  audio_path : Option String := none
  session_id : String := "default"
  query_type : String := "general"
  deriving DecidableEq, Repr

/-! ## Controller state (src/controllers/mental_health_controller.py) -/

/-- A LangChain chat message kept in `MentalHealthController.chat_history`. -/
inductive ChatMsg where
  | system (content : String)
  | human (content : String)
  deriving DecidableEq, Repr

/-- `SYSTEM_PROMPT` from src/core/agent.py. -/
def SYSTEM_PROMPT : String :=
  "\nYou are an AI engine supporting mental health conversations...\nYou have access to these tools:\n\n1. `get_general_health_answer`: Use this for all general health and emotional queries.\n2. `ask_medical_knowledge_base`: Use for specific medical questions from uploaded documents.\n3. `ask_web_for_health_info`: Use when a user wants more info from the web.\n4. `find_nearby_therapists_by_location`: Use if the user asks about nearby therapists.\n5. `emergency_call_tool`: Use immediately for suicidal thoughts or self-harm intentions.\n6. `find_mental_health_articles`: Use to find recent articles and research on a topic.\n7. `get_daily_affirmation`: Use to provide a positive affirmation.\n8. `suggest_breathing_exercise`: Use when the user feels anxious or overwhelmed.\n\n...\n"

/-- Combined mutable state of the controller: the `ConversationManager`'s two
dicts plus the controller's `chat_history` dict, each modelled as a keyed
partial map. -/
structure ControllerState where
  active_sessions : String → Option UserSession
  session_summaries : String → Option SessionSummary
  chat_history : String → Option (List ChatMsg)

/-- The freshly-constructed controller: all three dicts empty. -/
def initState : ControllerState :=
  { active_sessions := fun _ => none
    session_summaries := fun _ => none
    chat_history := fun _ => none }

/-- Dict write `d[k] = v`. -/
def dictSet {α : Type} (d : String → Option α) (k : String) (v : α) : String → Option α :=
  fun x => if x = k then some v else d x

/-- Dict delete `del d[k]`. -/
def dictDel {α : Type} (d : String → Option α) (k : String) : String → Option α :=
  fun x => if x = k then none else d x

/-- Store a session under its id. -/
def setSession (st : ControllerState) (sid : String) (s : UserSession) : ControllerState :=
  { st with active_sessions := dictSet st.active_sessions sid s }

/-- Store a chat history under a session id. -/
def setChatHistory (st : ControllerState) (sid : String) (h : List ChatMsg) : ControllerState :=
  { st with chat_history := dictSet st.chat_history sid h }

/-- `MentalHealthController._get_or_create_session`: return the existing
session, or create one (risk 1, empty log) and seed its chat history with
the system prompt. -/
def get_or_create_session (st : ControllerState) (session_id : String) (session_type : String) :
    ControllerState × UserSession :=
  match st.active_sessions session_id with
  | some session => (st, session)
  | none =>
    let session : UserSession :=
      { session_id := session_id, session_type := session_type
        conversation_history := [], risk_level := 1 }
    ({ st with
        active_sessions := dictSet st.active_sessions session_id session
        chat_history := dictSet st.chat_history session_id [ChatMsg.system SYSTEM_PROMPT] },
     session)

/-- `UserSession.add_interaction`, applied to the session stored under `sid`
(in Python the local `session` aliases the dict entry; on every call site the
session is present, the `none` arm is unreachable). -/
def addInteraction (st : ControllerState) (sid : String) (t : InteractionType)
    (content modality : String) : ControllerState :=
  match st.active_sessions sid with
  | none => st
  | some s =>
    setSession st sid
      { s with conversation_history :=
          s.conversation_history ++ [{ itype := t, content := content, modality := modality }] }

/-- Outcome of one `graph.astream` + `parse_response` agent invocation:
`(tool_called, ai_response)`, or the exception it raised. -/
def AgentResult : Type := Except PyExc (String × String)

/-- `MentalHealthController._handle_emergency`. -/
def handle_emergency (session_id : String) (_content : String) : EmergencyAssessment :=
  { session_id := session_id
    risk_level := 5
    indicators := ["Suicidal ideation detected", "Immediate intervention needed"]
    recommended_actions :=
      ["Contact emergency services", "Engage emergency call tool", "Provide crisis resources"]
    emergency_contacts := ["Emergency Services: 911", "Crisis Hotline: 988"]
    immediate_response := "I\x27m very concerned about you right now. Your safety is the most important thing."
    requires_human_intervention := true }

/-- `MentalHealthController._assess_risk_level`. -/
def assess_risk_level (content : String) (modality : String) : Int :=
  if modality = "text" then assess_text_risk content else 1

/-- The degraded response built by `process_text_interaction`'s `except` arm. -/
def text_error_response : TherapeuticResponse :=
  { content := "I apologize, but I encountered an issue processing your message. Please try again, and if you\x27re in crisis, please contact emergency services immediately."
    response_type := .conversation
    tools_used := ["error_handler"]
    confidence := 0
    emergency_flag := true }

/-- `MentalHealthController.process_text_interaction`
(src/controllers/mental_health_controller.py:86-150).  The agent call's
outcome is the `agent` oracle; any exception (from it, or from the
`chat_history[...]` lookup) lands in the `except` arm, which returns
`text_error_response` and keeps the mutations made so far. -/
def process_text_interaction (st : ControllerState) (request : Query) (agent : AgentResult) :
    ControllerState × TherapeuticResponse :=
  let p := get_or_create_session st request.session_id "general"
  let st1 := p.1
  let session := p.2
  let risk_level := assess_risk_level request.message "text"
  let st2 := setSession st1 request.session_id
    { session with risk_level := max session.risk_level risk_level }
  match st2.chat_history request.session_id with
  | none => (st2, text_error_response)
  | some hist =>
    if risk_level ≥ 4 then
      let emergency_assessment := handle_emergency request.session_id request.message
      let st3 := setChatHistory st2 request.session_id (hist ++ [ChatMsg.human request.message])
      match agent with
      | .error _ => (st3, text_error_response)
      | .ok (tool_called, ai_response) =>
        let combined_response :=
          emergency_assessment.immediate_response ++ "\\n\\n" ++ ai_response
        let response : TherapeuticResponse :=
          { content := combined_response
            response_type := .crisis_intervention
            tools_used := [tool_called, "emergency_assessment"]
            emergency_flag := true
            confidence := 0.95 }
        (addInteraction st3 request.session_id .conversation request.message "text", response)
    else
      let st3 := setChatHistory st2 request.session_id (hist ++ [ChatMsg.human request.message])
      match agent with
      | .error _ => (st3, text_error_response)
      | .ok (tool_called, ai_response) =>
        let st4 := setChatHistory st3 request.session_id
          ((hist ++ [ChatMsg.human request.message]) ++ [ChatMsg.human ai_response])
        let response : TherapeuticResponse :=
          { content := ai_response
            response_type := .conversation
            tools_used := [tool_called]
            confidence := 0.8 }
        (addInteraction st4 request.session_id .conversation request.message "text", response)

/-- The degraded response built by `process_image_interaction`'s `except` arm. -/
def image_error_response : TherapeuticResponse :=
  { content := "I had trouble analyzing your image. Could you try uploading it again or describe what you\x27d like me to help you with?"
    response_type := .art_therapy
    tools_used := ["error_handler"]
    confidence := 0 }

/-- The sentinel analysis result built by `process_image_interaction`'s `except` arm. -/
def image_error_analysis (image_path : String) : ImageAnalysisResult :=
  { image_path := image_path
    analysis_text := "Error occurred during analysis"
    confidence_score := 0 }

/-- `MentalHealthController.process_image_interaction`
(src/controllers/mental_health_controller.py:152-206).  `image_base64` is
the value returned by `process_image_for_analysis` (falsy ⇒ the handler
raises `ValueError`, caught by its own `except`); `groq` is the outcome of
the external `analyze_image_with_groq` call. -/
def process_image_interaction (st : ControllerState) (request : ImageAnalysisRequest)
    (image_base64 : Option String) (groq : Except PyExc String) :
    ControllerState × TherapeuticResponse × ImageAnalysisResult :=
  let p := get_or_create_session st request.session_id "general"
  let st1 := p.1
  let error_result := (st1, image_error_response, image_error_analysis request.image_path)
  match image_base64 with
  | none => error_result
  | some b64 =>
    if b64 = "" then error_result
    else
      match groq with
      | .error _ => error_result
      | .ok analysis_text =>
        let analysis_result : ImageAnalysisResult :=
          { image_path := request.image_path
            analysis_text := analysis_text
            confidence_score := 0.8 }
        let response : TherapeuticResponse :=
          { content := analysis_text
            response_type := .art_therapy
            modality := "visual"
            tools_used := ["analyze_uploaded_image"]
            confidence := 0.8 }
        let st2 := addInteraction st1 request.session_id .art_therapy
          ("Image analysis: " ++ request.query) "image"
        (st2, response, analysis_result)

/-- The degraded response built by `process_voice_interaction`'s `except` arm. -/
def voice_error_response : TherapeuticResponse :=
  { content := "I had trouble understanding your voice message. Could you try again or type your message?"
    response_type := .voice_therapy
    tools_used := ["error_handler"]
    confidence := 0 }

/-- The sentinel analysis result built by `process_voice_interaction`'s `except` arm. -/
def voice_error_analysis (audio_path : String) : VoiceAnalysisResult :=
  { audio_path := audio_path
    transcription := "Error occurred during transcription"
    urgency_level := 1 }

/-- `MentalHealthController.process_voice_interaction`
(src/controllers/mental_health_controller.py:208-276).  `transcription_result`
is the outcome of `audio_processor.transcribe_with_groq` (an exception, or a
string; an empty string is falsy and makes the handler raise `ValueError`
into its own `except`); `innerAgent` feeds the nested
`process_text_interaction` call made when `transcription_only` is false. -/
def process_voice_interaction (st : ControllerState) (request : AudioProcessRequest)
    (transcription_result : Except PyExc String) (innerAgent : AgentResult) :
    ControllerState × TherapeuticResponse × VoiceAnalysisResult :=
  let p := get_or_create_session st request.session_id "general"
  let st1 := p.1
  let session := p.2
  let error_result := (st1, voice_error_response, voice_error_analysis request.audio_path)
  match transcription_result with
  | .error _ => error_result
  | .ok transcription =>
    if transcription = "" then error_result
    else
      let risk_level := assess_risk_level transcription "text"
      let st2 := setSession st1 request.session_id
        { session with risk_level := max session.risk_level risk_level }
      let voice_analysis0 : VoiceAnalysisResult :=
        { audio_path := request.audio_path
          transcription := transcription
          urgency_level := risk_level }
      if !request.transcription_only then
        let text_request : Query := { message := transcription, session_id := request.session_id }
        let q := process_text_interaction st2 text_request innerAgent
        let st3 := q.1
        let therapeutic_response := q.2
        let voice_analysis :=
          { voice_analysis0 with therapeutic_response := therapeutic_response.content }
        let response : TherapeuticResponse :=
          { content := therapeutic_response.content
            response_type := .voice_therapy
            modality := "audio"
            tools_used := "process_voice_message" :: therapeutic_response.tools_used
            confidence := therapeutic_response.confidence
            emergency_flag := therapeutic_response.emergency_flag }
        (addInteraction st3 request.session_id .voice_therapy transcription "audio",
         response, voice_analysis)
      else
        let response : TherapeuticResponse :=
          { content := transcription
            response_type := .voice_therapy
            modality := "audio"
            tools_used := ["transcription_only"]
            confidence := 0.9 }
        (addInteraction st2 request.session_id .voice_therapy transcription "audio",
         response, voice_analysis0)

/-- Python truthiness of an `Optional[str]` (`None` and `""` are falsy). -/
def truthy : Option String → Bool
  | none => false
  | some s => s != ""

/-- Python `opt or default` on an `Optional[str]`. -/
def pyOr (opt : Option String) (dflt : String) : String :=
  match opt with
  | none => dflt
  | some s => if s = "" then dflt else s

/-- The oracle bundle for one multimodal call: outcomes of every external
capability invocation it can make. -/
structure MMOracles where
  image_base64 : Option String
  image_groq : Except PyExc String
  transcription : Except PyExc String
  voice_agent : Except PyExc (String × String)
  text_agent : Except PyExc (String × String)

/-- The separator `"\\n\\n".join(...)` uses in the Python source: note the
doubled backslashes in the source make it the literal four characters
backslash n backslash n, not two newline characters. -/
def MM_SEP : String := "\\n\\n"

/-- Intermediate results of `process_multimodal_interaction`, in its fixed
processing order image → audio → text. -/
structure MMTrace where
  image_part : Option TherapeuticResponse
  voice_part : Option (TherapeuticResponse × VoiceAnalysisResult)
  effective_text : Option String
  text_part : Option TherapeuticResponse
  response_parts : List String
  tools_used : List String
  highest_confidence : ℚ
  emergency_detected : Bool
  stAfter : ControllerState

/-- Image step of the multimodal body (`if request.image_path:` block). -/
def mmImageStep (st0 : ControllerState) (request : MultimodalRequest) (o : MMOracles) :
    ControllerState × Option TherapeuticResponse :=
  if truthy request.image_path then
    let image_request : ImageAnalysisRequest :=
      { image_path := request.image_path.getD ""
        query := "Analyze this image in the context of the user\x27s overall query"
        session_id := request.session_id }
    let r := process_image_interaction st0 image_request o.image_base64 o.image_groq
    (r.1, some r.2.1)
  else (st0, none)

/-- Audio step of the multimodal body (`if request.audio_path:` block). -/
def mmVoiceStep (st1 : ControllerState) (request : MultimodalRequest) (o : MMOracles) :
    ControllerState × Option (TherapeuticResponse × VoiceAnalysisResult) :=
  if truthy request.audio_path then
    let audio_request : AudioProcessRequest :=
      { audio_path := request.audio_path.getD ""
        session_id := request.session_id
        transcription_only := false }
    let r := process_voice_interaction st1 audio_request o.transcription o.voice_agent
    (r.1, some r.2)
  else (st1, none)

/-- `request.text` after the audio block's
`if not request.text: request.text = voice_analysis.transcription`. -/
def mmEffectiveText (text : Option String)
    (voice_part : Option (TherapeuticResponse × VoiceAnalysisResult)) : Option String :=
  match voice_part with
  | some r => if truthy text then text else some r.2.transcription
  | none => text

/-- Text step of the multimodal body (`if request.text:` block). -/
def mmTextStep (st2 : ControllerState) (request : MultimodalRequest) (o : MMOracles)
    (effective_text : Option String) : ControllerState × Option TherapeuticResponse :=
  if truthy effective_text then
    let text_request : Query :=
      { message := effective_text.getD "", session_id := request.session_id }
    let r := process_text_interaction st2 text_request o.text_agent
    (r.1, some r.2)
  else (st2, none)

/-- The `response_parts` accumulator after the three blocks: one labeled
fragment per processed modality, in processing order. -/
def mmParts (image_part : Option TherapeuticResponse)
    (voice_part : Option (TherapeuticResponse × VoiceAnalysisResult))
    (text_part : Option TherapeuticResponse) : List String :=
  (match image_part with
   | some r => ["Image Analysis: " ++ r.content]
   | none => []) ++
  (match voice_part with
   | some r => ["Voice Analysis: " ++ r.1.content]
   | none => []) ++
  (match text_part with
   | some r => ["AI Response: " ++ r.content]
   | none => [])

/-- The `tools_used` accumulator (successive `extend`s). -/
def mmTools (image_part : Option TherapeuticResponse)
    (voice_part : Option (TherapeuticResponse × VoiceAnalysisResult))
    (text_part : Option TherapeuticResponse) : List String :=
  (match image_part with
   | some r => r.tools_used
   | none => []) ++
  (match voice_part with
   | some r => r.1.tools_used
   | none => []) ++
  (match text_part with
   | some r => r.tools_used
   | none => [])

/-- The `highest_confidence` accumulator: starts at 0.0, `max`ed after each
processed modality. -/
def mmConfidence (image_part : Option TherapeuticResponse)
    (voice_part : Option (TherapeuticResponse × VoiceAnalysisResult))
    (text_part : Option TherapeuticResponse) : ℚ :=
  max (max (max 0
    (match image_part with
     | some r => r.confidence
     | none => 0))
    (match voice_part with
     | some r => r.1.confidence
     | none => 0))
    (match text_part with
     | some r => r.confidence
     | none => 0)

/-- The `emergency_detected` accumulator: starts `False`, `or`ed with the
voice and text flags (the image block does not consult its flag). -/
def mmEmergency (voice_part : Option (TherapeuticResponse × VoiceAnalysisResult))
    (text_part : Option TherapeuticResponse) : Bool :=
  ((false ||
    (match voice_part with
     | some r => r.1.emergency_flag
     | none => false)) ||
    (match text_part with
     | some r => r.emergency_flag
     | none => false))

/-- The body of `MentalHealthController.process_multimodal_interaction`
(src/controllers/mental_health_controller.py:278-344) up to the point where
the combined response is assembled, exposing each accumulator. -/
def mmTrace (st : ControllerState) (request : MultimodalRequest) (o : MMOracles) : MMTrace :=
  let st0 := (get_or_create_session st request.session_id request.query_type).1
  let step1 := mmImageStep st0 request o
  let step2 := mmVoiceStep step1.1 request o
  let effective_text := mmEffectiveText request.text step2.2
  let step3 := mmTextStep step2.1 request o effective_text
  { image_part := step1.2
    voice_part := step2.2
    effective_text := effective_text
    text_part := step3.2
    response_parts := mmParts step1.2 step2.2 step3.2
    tools_used := mmTools step1.2 step2.2 step3.2
    highest_confidence := mmConfidence step1.2 step2.2 step3.2
    emergency_detected := mmEmergency step2.2 step3.2
    stAfter := step3.1 }

/-- `MentalHealthController.process_multimodal_interaction`: assemble the
combined response from the trace.  `list(set(tools_used))` iterates a Python
set, whose order is unspecified; only membership is meaningful, modelled by
`List.dedup`. -/
def process_multimodal_interaction (st : ControllerState) (request : MultimodalRequest)
    (o : MMOracles) : ControllerState × TherapeuticResponse :=
  let t := mmTrace st request o
  let combined_content :=
    if t.response_parts.isEmpty then "I didn\x27t receive any input to process."
    else String.intercalate MM_SEP t.response_parts
  let response : TherapeuticResponse :=
    { content := combined_content
      response_type := .conversation
      modality := "multimodal"
      tools_used := t.tools_used.dedup
      confidence := t.highest_confidence
      emergency_flag := t.emergency_detected }
  let stF := addInteraction t.stAfter request.session_id .conversation
    ("Multimodal interaction: " ++ pyOr t.effective_text "No text") "multimodal"
  (stF, response)

/-- `ConversationManager.end_session` (src/models/business_models.py:215-242):
summarize and evict; `none` for an unknown id.  The Python set-comprehensions
for `modalities_used`/`tools_utilized` have unspecified order; only
membership is meaningful, modelled by `List.dedup`.  Interactions written by
`add_interaction` never carry a `tool_used` key, so that filter keeps only
entries whose optional `tool_used` is a truthy string. -/
def end_session (st : ControllerState) (session_id : String) :
    ControllerState × Option SessionSummary :=
  match st.active_sessions session_id with
  | none => (st, none)
  | some session =>
    let summary : SessionSummary :=
      { session_id := session_id
        interaction_count := session.conversation_history.length
        modalities_used := (session.conversation_history.map (fun i => i.modality)).dedup
        tools_utilized :=
          ((session.conversation_history.filterMap (fun i => i.tool_used)).filter
            (fun s => s != "")).dedup }
    ({ st with
        active_sessions := dictDel st.active_sessions session_id
        session_summaries := dictSet st.session_summaries session_id summary },
     some summary)

/-- `MentalHealthController.clear_session`
(src/controllers/mental_health_controller.py:373-386): reset the chat
history for the id to just the system prompt (when the id is a key of
`chat_history`), then, if a session exists, summarize and remove it via
`end_session` and return `true`; otherwise return `false`. -/
def clear_session (st : ControllerState) (session_id : String) : ControllerState × Bool :=
  let st1 :=
    match st.chat_history session_id with
    | some _ => setChatHistory st session_id [ChatMsg.system SYSTEM_PROMPT]
    | none => st
  match st1.active_sessions session_id with
  | some _ => ((end_session st1 session_id).1, true)
  | none => (st1, false)

/-! ## Voice synthesis (src/core/audio_processor.py:231-314 and
`MentalHealthController.generate_voice_response`, lines 355-367). -/

/-- Environment and oracles for one voice-generation call. -/
structure TTSEnv where
  elevenlabs_api_key : Bool
  elevenlabs_client : Bool
  elevenlabs_legacy : Bool
  premium_synthesis : Except PyExc String
  gtts_synthesis : Except PyExc String

/-- `AudioProcessor.text_to_speech_gtts`: the gTTS call plus temp-file save
(outcome `gtts_synthesis`); on exception, print and return `None`. -/
def text_to_speech_gtts (env : TTSEnv) : Option String :=
  match env.gtts_synthesis with
  | .ok temp_file => some temp_file
  | .error _ => none

/-- `AudioProcessor.text_to_speech_elevenlabs`: missing API key or missing
client library delegates to gTTS; otherwise attempt the premium synthesis
and on any exception fall back to gTTS. -/
def text_to_speech_elevenlabs (env : TTSEnv) : Option String :=
  if !env.elevenlabs_api_key then text_to_speech_gtts env
  else if env.elevenlabs_client || env.elevenlabs_legacy then
    match env.premium_synthesis with
    | .ok temp_file => some temp_file
    | .error _ => text_to_speech_gtts env
  else text_to_speech_gtts env

/-- `MentalHealthController.generate_voice_response`: dispatch on
`use_premium`, then `return audio_file or ""`. -/
def generate_voice_response (env : TTSEnv) (use_premium : Bool) : String :=
  let audio_file := if use_premium then text_to_speech_elevenlabs env else text_to_speech_gtts env
  pyOr audio_file ""

/-- Flag of an optional sub-response (`False` when the modality was skipped). -/
def optFlag : Option TherapeuticResponse → Bool
  | some r => r.emergency_flag
  | none => false

/-- Confidence of an optional sub-response (0 when the modality was skipped). -/
def optConf : Option TherapeuticResponse → ℚ
  | some r => r.confidence
  | none => 0

/-- Tool list of an optional sub-response (empty when the modality was skipped). -/
def optTools : Option TherapeuticResponse → List String
  | some r => r.tools_used
  | none => []

/-- The labeled fragment an optional sub-response contributes to
`response_parts` (none when the modality was skipped). -/
def optFragment (label : String) : Option TherapeuticResponse → List String
  | some r => [label ++ r.content]
  | none => []

/-- The risk level of the session stored under `sid`, if any. -/
def session_risk (st : ControllerState) (sid : String) : Option Int :=
  (st.active_sessions sid).map (fun s => s.risk_level)

/-- The aggregate risk a turn starts from: the stored session's level, or the
fresh-session level 1 when the id is unseen. -/
def prevAggregate (st : ControllerState) (sid : String) : Int :=
  match st.active_sessions sid with
  | some s => s.risk_level
  | none => 1

/-- No session's aggregate risk is decremented between the two states (a
session that disappears has no aggregate). -/
def riskMono (st st' : ControllerState) : Prop :=
  ∀ sid s s', st.active_sessions sid = some s → st'.active_sessions sid = some s' →
    s.risk_level ≤ s'.risk_level

/-- Every session survives with aggregate risk at least its old one. -/
def riskLe (st st' : ControllerState) : Prop :=
  ∀ sid s, st.active_sessions sid = some s →
    ∃ s', st'.active_sessions sid = some s' ∧ s.risk_level ≤ s'.risk_level

/-- Controller well-formedness: every active session's id is a key of the
chat-history dict.  `_get_or_create_session` establishes it and no modelled
operation breaks it; `process_text_interaction` needs it so that the
`chat_history[...]` lookup cannot raise. -/
def WFState (st : ControllerState) : Prop :=
  ∀ sid, (st.active_sessions sid).isSome → (st.chat_history sid).isSome

/-! ## Theorems -/

lemma assess_text_risk_dyn_str (s : String) :
    assess_text_risk_dyn (PyVal.str s) = Except.ok (assess_text_risk s) := by
  simp only [assess_text_risk_dyn, pyLower, assess_text_risk]
  split <;> first | rfl | (split <;> rfl)


lemma any_contains_iff (ks : List String) (s : String) :
    (ks.any fun keyword => strContains s keyword) = true ↔ ∃ k ∈ ks, occursIn k s := by
  simp [strContains, List.any_eq_true]

/-- C1: for every input string, `assess_text_risk` returns 5 if the
lowercased string contains a high-risk keyword as a substring; otherwise 3
if it contains a medium-risk keyword; otherwise 1 — the high-risk tier is
checked first, deterministically and case-insensitively. -/
theorem assess_text_risk_tiered (text : String) :
    assess_text_risk text =
      if ∃ k ∈ high_risk_keywords, occursIn k (str_lower text) then 5
      else if ∃ k ∈ medium_risk_keywords, occursIn k (str_lower text) then 3
      else 1 := by
  have hlet : assess_text_risk text =
      (if (high_risk_keywords.any fun keyword => strContains (str_lower text) keyword) = true then 5
       else if (medium_risk_keywords.any fun keyword => strContains (str_lower text) keyword) = true
       then (3 : Int) else 1) := rfl
  by_cases hh : ∃ k ∈ high_risk_keywords, occursIn k (str_lower text)
  · rw [hlet, if_pos ((any_contains_iff _ _).mpr hh), if_pos hh]
  · have hh' : ¬ ((high_risk_keywords.any fun keyword => strContains (str_lower text) keyword) = true) :=
      fun hc => hh ((any_contains_iff _ _).mp hc)
    rw [hlet, if_neg hh', if_neg hh]
    by_cases hm : ∃ k ∈ medium_risk_keywords, occursIn k (str_lower text)
    · rw [if_pos ((any_contains_iff _ _).mpr hm), if_pos hm]
    · have hm' : ¬ ((medium_risk_keywords.any fun keyword => strContains (str_lower text) keyword) = true) :=
        fun hc => hm ((any_contains_iff _ _).mp hc)
      rw [if_neg hm', if_neg hm]

/-- C5: `assess_text_risk` is not total on unexpected input types — it calls
`text.lower()` unconditionally, so a non-string argument (e.g. the integer 0)
raises `AttributeError` instead of being treated as level 1. -/
theorem assess_text_risk_dyn_raises_on_int :
    assess_text_risk_dyn (PyVal.int 0) =
      Except.error (PyExc.attributeError "int object has no attribute lower") ∧
    ¬ (∀ v : PyVal, ∃ n : Int, assess_text_risk_dyn v = Except.ok n) := by
  refine ⟨rfl, fun h => ?_⟩
  obtain ⟨n, hn⟩ := h (PyVal.int 0)
  simp [assess_text_risk_dyn, pyLower] at hn

lemma wf_initState : WFState initState := by
  intro sid h
  simp [initState] at h

lemma gocs_chat_history (st : ControllerState) (sid stype : String) :
    (get_or_create_session st sid stype).1.chat_history sid =
      match st.active_sessions sid with
      | some _ => st.chat_history sid
      | none => some [ChatMsg.system SYSTEM_PROMPT] := by
  unfold get_or_create_session
  cases h : st.active_sessions sid <;> simp [dictSet]

/-- Shape of the response `process_text_interaction` returns when the agent
call succeeds: crisis shape for risk ≥ 4, plain conversation shape below. -/
lemma process_text_ok_eq (st : ControllerState) (request : Query) (tool ai : String)
    (hwf : (st.active_sessions request.session_id).isSome →
      (st.chat_history request.session_id).isSome) :
    (process_text_interaction st request (Except.ok (tool, ai))).2 =
      if assess_text_risk request.message ≥ 4 then
        { content := (handle_emergency request.session_id request.message).immediate_response ++
            "\\n\\n" ++ ai
          response_type := .crisis_intervention
          tools_used := [tool, "emergency_assessment"]
          emergency_flag := true
          confidence := 0.95 }
      else
        { content := ai
          response_type := .conversation
          tools_used := [tool]
          confidence := 0.8 } := by
  unfold process_text_interaction
  cases h : st.active_sessions request.session_id with
  | none =>
    simp only [get_or_create_session, h, assess_risk_level, setSession, setChatHistory, dictSet,
      eq_self_iff_true, ite_true]
    split <;> rfl
  | some session =>
    obtain ⟨hist, hh⟩ := Option.isSome_iff_exists.mp (hwf (by simp [h]))
    simp only [get_or_create_session, h, assess_risk_level, setSession, setChatHistory, dictSet,
      eq_self_iff_true, ite_true, hh]
    split <;> rfl

/-- C2: on a text interaction whose message assesses to risk ≥ 4, the
response is the fixed immediate-safety message concatenated before the
agent reply, with confidence 0.95 and crisis-intervention type; below 4 the
content is exactly the agent reply with confidence 0.8; in both branches the
agent's output (`tool`, `ai`) is consumed. -/
theorem process_text_crisis_vs_normal (st : ControllerState) (request : Query) (tool ai : String)
    (hwf : WFState st) :
    (assess_text_risk request.message ≥ 4 →
      (process_text_interaction st request (Except.ok (tool, ai))).2 =
        { content := (handle_emergency request.session_id request.message).immediate_response ++
            "\\n\\n" ++ ai
          response_type := .crisis_intervention
          tools_used := [tool, "emergency_assessment"]
          emergency_flag := true
          confidence := 0.95 }) ∧
    (assess_text_risk request.message < 4 →
      (process_text_interaction st request (Except.ok (tool, ai))).2 =
        { content := ai
          response_type := .conversation
          tools_used := [tool]
          confidence := 0.8 }) := by
  have he := process_text_ok_eq st request tool ai (hwf request.session_id)
  constructor
  · intro hr
    rw [he, if_pos hr]
  · intro hr
    rw [he, if_neg (not_le.mpr hr)]

/-- Witness for C2 at concrete inputs: a high-risk and a low-risk message. -/
theorem process_text_crisis_vs_normal_witness :
    (process_text_interaction initState { message := "I want to die", session_id := "s1" }
      (Except.ok ("None", "r1"))).2 =
      { content := "I\x27m very concerned about you right now. Your safety is the most important thing." ++
          "\\n\\n" ++ "r1"
        response_type := .crisis_intervention
        tools_used := ["None", "emergency_assessment"]
        emergency_flag := true
        confidence := 0.95 } ∧
    (process_text_interaction initState { message := "good morning", session_id := "s1" }
      (Except.ok ("None", "r2"))).2 =
      { content := "r2"
        response_type := .conversation
        tools_used := ["None"]
        confidence := 0.8 } :=
  ⟨(process_text_crisis_vs_normal initState
      { message := "I want to die", session_id := "s1" } "None" "r1" wf_initState).1 (by decide),
   (process_text_crisis_vs_normal initState
      { message := "good morning", session_id := "s1" } "None" "r2" wf_initState).2 (by decide)⟩

/-- Every path of `process_text_interaction` under a failing agent call (or a
missing chat-history key) returns the fixed degraded response. -/
lemma process_text_error_eq (st : ControllerState) (request : Query) (e : PyExc) :
    (process_text_interaction st request (Except.error e)).2 = text_error_response := by
  unfold process_text_interaction
  split
  · dsimp only []
    split
    · rfl
    · split <;> rfl
  · next _ _ heq => exact Except.noConfusion heq

/-- `process_image_interaction` never raises the emergency flag: both its
success and error responses leave the flag at its `False` default. -/
lemma image_flag_false (st : ControllerState) (request : ImageAnalysisRequest)
    (b64 : Option String) (groq : Except PyExc String) :
    (process_image_interaction st request b64 groq).2.1.emergency_flag = false := by
  unfold process_image_interaction
  split
  · rfl
  · split
    · rfl
    · split <;> rfl

lemma mm_image_part_flag (st : ControllerState) (request : MultimodalRequest) (o : MMOracles) :
    optFlag (mmTrace st request o).image_part = false := by
  show optFlag (mmImageStep _ request o).2 = false
  unfold mmImageStep
  split
  · exact image_flag_false _ _ _ _
  · rfl

/-- C3 counterexample: a low-risk message whose agent call fails yields a
response with the emergency flag raised even though the turn's risk is
below 4 and there is no contributing sub-response. -/
theorem emergency_flag_iff_counterexample :
    (process_text_interaction initState { message := "good morning", session_id := "s1" }
      (Except.error (PyExc.exc "agent unavailable"))).2.emergency_flag = true ∧
    assess_text_risk "good morning" < 4 := by
  constructor
  · decide
  · decide

/-- C3 (amended): on a successfully processed text turn the emergency flag is
raised iff the assessed risk is ≥ 4; when text processing fails internally
the degraded response raises the flag unconditionally; and a multimodal
call's flag is exactly the OR of its sub-responses' flags (so a raised flag
is never cleared within the call — the image sub-response's flag is
provably always `False`, making the OR over all three fragments exact). -/
theorem emergency_flag_amended :
    (∀ (st : ControllerState) (request : Query) (tool ai : String), WFState st →
      ((process_text_interaction st request (Except.ok (tool, ai))).2.emergency_flag = true ↔
        assess_text_risk request.message ≥ 4)) ∧
    (∀ (st : ControllerState) (request : Query) (e : PyExc),
      (process_text_interaction st request (Except.error e)).2.emergency_flag = true) ∧
    (∀ (st : ControllerState) (request : MultimodalRequest) (o : MMOracles),
      (process_multimodal_interaction st request o).2.emergency_flag =
        (optFlag (mmTrace st request o).image_part ||
         optFlag ((mmTrace st request o).voice_part.map Prod.fst) ||
         optFlag (mmTrace st request o).text_part)) := by
  refine ⟨fun st request tool ai hwf => ?_, fun st request e => ?_, fun st request o => ?_⟩
  · rw [process_text_ok_eq st request tool ai (hwf request.session_id)]
    by_cases hr : assess_text_risk request.message ≥ 4
    · rw [if_pos hr]
      simpa using hr
    · rw [if_neg hr]
      simpa using hr
  · rw [process_text_error_eq]
    rfl
  · have hflag : (process_multimodal_interaction st request o).2.emergency_flag =
        mmEmergency (mmTrace st request o).voice_part (mmTrace st request o).text_part := rfl
    rw [hflag, mm_image_part_flag]
    unfold mmEmergency optFlag
    cases (mmTrace st request o).voice_part <;> cases (mmTrace st request o).text_part <;> simp

/-- Witness for C3's amended theorem at concrete inputs. -/
theorem emergency_flag_amended_witness :
    ((process_text_interaction initState { message := "I feel hopeless", session_id := "s1" }
      (Except.ok ("None", "r"))).2.emergency_flag = true ↔
      assess_text_risk "I feel hopeless" ≥ 4) ∧
    (process_text_interaction initState { message := "hi", session_id := "s2" }
      (Except.error (PyExc.exc "boom"))).2.emergency_flag = true :=
  ⟨emergency_flag_amended.1 initState { message := "I feel hopeless", session_id := "s1" }
      "None" "r" wf_initState,
   emergency_flag_amended.2.1 initState { message := "hi", session_id := "s2" } (PyExc.exc "boom")⟩

lemma gocs_active_self (st : ControllerState) (sid stype : String) :
    (get_or_create_session st sid stype).1.active_sessions sid =
      some (get_or_create_session st sid stype).2 := by
  unfold get_or_create_session
  cases h : st.active_sessions sid <;> simp [dictSet, h]

lemma gocs_active_other (st : ControllerState) (sid stype sid' : String) (h : sid' ≠ sid) :
    (get_or_create_session st sid stype).1.active_sessions sid' = st.active_sessions sid' := by
  unfold get_or_create_session
  cases hh : st.active_sessions sid <;> simp [dictSet, h]

lemma gocs_val_of_some (st : ControllerState) (sid stype : String) (s : UserSession)
    (h : st.active_sessions sid = some s) :
    (get_or_create_session st sid stype).2 = s := by
  unfold get_or_create_session
  simp [h]

lemma gocs_risk (st : ControllerState) (sid stype : String) :
    (get_or_create_session st sid stype).2.risk_level = prevAggregate st sid := by
  unfold get_or_create_session prevAggregate
  cases h : st.active_sessions sid <;> simp [h]

lemma assess_risk_level_text (m : String) : assess_risk_level m "text" = assess_text_risk m := by
  simp [assess_risk_level]

/-- The session store after `process_text_interaction`: the turn's session
has its risk `max`ed with the assessed level (and possibly a logged turn
appended); every other session is untouched. -/
lemma process_text_state_active (st : ControllerState) (request : Query) (agent : AgentResult)
    (sid' : String) :
    ∃ added : List Interaction,
      (process_text_interaction st request agent).1.active_sessions sid' =
        if sid' = request.session_id then
          some { (get_or_create_session st request.session_id "general").2 with
                   risk_level := max (get_or_create_session st request.session_id "general").2.risk_level
                     (assess_text_risk request.message)
                   conversation_history :=
                     (get_or_create_session st request.session_id "general").2.conversation_history
                       ++ added }
        else st.active_sessions sid' := by
  obtain e | ⟨tool, ai⟩ := agent
  all_goals {
    unfold process_text_interaction
    dsimp only []
    rw [assess_risk_level_text]
    split
    case _ =>
      refine ⟨[], ?_⟩
      by_cases hsid : sid' = request.session_id
      · subst hsid
        simp [setSession, dictSet]
      · simp [setSession, dictSet, hsid, gocs_active_other _ _ _ _ hsid]
    case _ =>
      split
      all_goals first
      | (refine ⟨[], ?_⟩
         by_cases hsid : sid' = request.session_id
         · subst hsid
           simp [setSession, setChatHistory, dictSet]
         · simp [setSession, setChatHistory, dictSet, hsid, gocs_active_other _ _ _ _ hsid])
      | (refine ⟨[{ itype := .conversation, content := request.message, modality := "text" }], ?_⟩
         by_cases hsid : sid' = request.session_id
         · subst hsid
           simp [addInteraction, setSession, setChatHistory, dictSet]
         · simp [addInteraction, setSession, setChatHistory, dictSet, hsid,
             gocs_active_other _ _ _ _ hsid])
  }

lemma session_risk_addInteraction (st : ControllerState) (sid : String) (t : InteractionType)
    (c m sid' : String) :
    session_risk (addInteraction st sid t c m) sid' = session_risk st sid' := by
  unfold addInteraction session_risk setSession dictSet
  cases h : st.active_sessions sid
  · simp
  · by_cases e : sid' = sid
    · subst e
      simp [h]
    · simp [e]

lemma process_text_session_risk (st : ControllerState) (request : Query) (agent : AgentResult) :
    session_risk (process_text_interaction st request agent).1 request.session_id =
      some (max (prevAggregate st request.session_id) (assess_text_risk request.message)) := by
  obtain ⟨added, h⟩ := process_text_state_active st request agent request.session_id
  rw [session_risk, h, if_pos rfl]
  simp [gocs_risk]

lemma riskLe_refl (st : ControllerState) : riskLe st st :=
  fun _ s h => ⟨s, h, le_refl _⟩

lemma riskLe_trans {a b c : ControllerState} (h1 : riskLe a b) (h2 : riskLe b c) : riskLe a c := by
  intro sid s hs
  obtain ⟨s', hb, hle⟩ := h1 sid s hs
  obtain ⟨s'', hc, hle'⟩ := h2 sid s' hb
  exact ⟨s'', hc, le_trans hle hle'⟩

lemma riskLe_riskMono {a b : ControllerState} (h : riskLe a b) : riskMono a b := by
  intro sid s s' ha hb
  obtain ⟨s'', hb', hle⟩ := h sid s ha
  rw [hb] at hb'
  cases hb'
  exact hle

lemma process_text_riskLe (st : ControllerState) (request : Query) (agent : AgentResult) :
    riskLe st (process_text_interaction st request agent).1 := by
  intro sid s hs
  obtain ⟨added, h⟩ := process_text_state_active st request agent sid
  by_cases hsid : sid = request.session_id
  · subst hsid
    rw [h, if_pos rfl]
    refine ⟨_, rfl, ?_⟩
    rw [gocs_val_of_some _ _ _ _ hs]
    exact le_max_left _ _
  · exact ⟨s, by rw [h, if_neg hsid]; exact hs, le_refl _⟩

/-- The session store after `process_image_interaction`: the turn's session
possibly gains a logged turn; risk levels are untouched everywhere. -/
lemma process_image_state_active (st : ControllerState) (request : ImageAnalysisRequest)
    (b64 : Option String) (groq : Except PyExc String) (sid' : String) :
    ∃ added : List Interaction,
      (process_image_interaction st request b64 groq).1.active_sessions sid' =
        if sid' = request.session_id then
          some { (get_or_create_session st request.session_id "general").2 with
                   conversation_history :=
                     (get_or_create_session st request.session_id "general").2.conversation_history
                       ++ added }
        else st.active_sessions sid' := by
  unfold process_image_interaction
  dsimp only []
  have base : ∃ added : List Interaction,
      (get_or_create_session st request.session_id "general").1.active_sessions sid' =
        if sid' = request.session_id then
          some { (get_or_create_session st request.session_id "general").2 with
                   conversation_history :=
                     (get_or_create_session st request.session_id "general").2.conversation_history
                       ++ added }
        else st.active_sessions sid' := by
    refine ⟨[], ?_⟩
    by_cases hsid : sid' = request.session_id
    · subst hsid
      simp [gocs_active_self]
    · simp [hsid, gocs_active_other _ _ _ _ hsid]
  split
  · exact base
  · split
    · exact base
    · split
      · exact base
      · refine ⟨[{ itype := .art_therapy, content := ("Image analysis: " ++ request.query), modality := "image" }], ?_⟩
        by_cases hsid : sid' = request.session_id
        · subst hsid
          simp [addInteraction, setSession, dictSet, gocs_active_self]
        · simp [addInteraction, setSession, dictSet, hsid, gocs_active_other _ _ _ _ hsid,
            gocs_active_self]

lemma process_image_riskLe (st : ControllerState) (request : ImageAnalysisRequest)
    (b64 : Option String) (groq : Except PyExc String) :
    riskLe st (process_image_interaction st request b64 groq).1 := by
  intro sid s hs
  obtain ⟨added, h⟩ := process_image_state_active st request b64 groq sid
  by_cases hsid : sid = request.session_id
  · subst hsid
    rw [h, if_pos rfl]
    refine ⟨_, rfl, ?_⟩
    rw [gocs_val_of_some _ _ _ _ hs]
  · exact ⟨s, by rw [h, if_neg hsid]; exact hs, le_refl _⟩

lemma riskLe_gocs (st : ControllerState) (sid stype : String) :
    riskLe st (get_or_create_session st sid stype).1 := by
  intro sid₀ s hs
  by_cases h : sid₀ = sid
  · subst h
    refine ⟨(get_or_create_session st sid₀ stype).2, gocs_active_self _ _ _, ?_⟩
    rw [gocs_val_of_some _ _ _ _ hs]
  · exact ⟨s, by rw [gocs_active_other _ _ _ _ h]; exact hs, le_refl _⟩

lemma riskLe_addInteraction (st : ControllerState) (sid : String) (t : InteractionType)
    (c m : String) :
    riskLe st (addInteraction st sid t c m) := by
  intro sid₀ s hs
  unfold addInteraction
  cases h : st.active_sessions sid
  · exact ⟨s, hs, le_refl _⟩
  · by_cases e : sid₀ = sid
    · subst e
      rw [hs] at h
      cases h
      exact ⟨{ s with conversation_history := s.conversation_history ++ [{ itype := t, content := c, modality := m }] }, by simp [setSession, dictSet], le_refl _⟩
    · exact ⟨s, by simp only [setSession, dictSet]; rw [if_neg e]; exact hs, le_refl _⟩

lemma riskLe_setSession_risk (st : ControllerState) (sid stype : String) (r : Int) :
    riskLe st (setSession (get_or_create_session st sid stype).1 sid
      { (get_or_create_session st sid stype).2 with
          risk_level := max (get_or_create_session st sid stype).2.risk_level r }) := by
  intro sid₀ s hs
  by_cases e : sid₀ = sid
  · subst e
    refine ⟨{ (get_or_create_session st sid₀ stype).2 with risk_level := max (get_or_create_session st sid₀ stype).2.risk_level r }, by simp [setSession, dictSet], ?_⟩
    have hv := gocs_val_of_some st sid₀ stype s hs
    simp only [hv]
    exact le_max_left _ _
  · refine ⟨s, ?_, le_refl _⟩
    simp only [setSession, dictSet]
    rw [if_neg e, gocs_active_other _ _ _ _ e]
    exact hs

lemma prevAggregate_st2 (st : ControllerState) (sid stype : String) (r : Int) :
    prevAggregate (setSession (get_or_create_session st sid stype).1 sid
      { (get_or_create_session st sid stype).2 with
          risk_level := max (get_or_create_session st sid stype).2.risk_level r }) sid =
      max (prevAggregate st sid) r := by
  simp [prevAggregate, setSession, dictSet, gocs_risk st sid stype]

lemma process_voice_riskLe (st : ControllerState) (request : AudioProcessRequest)
    (tr : Except PyExc String) (agent : AgentResult) :
    riskLe st (process_voice_interaction st request tr agent).1 := by
  unfold process_voice_interaction
  dsimp only []
  split
  · exact riskLe_gocs _ _ _
  · split
    · exact riskLe_gocs _ _ _
    · split
      · exact riskLe_trans (riskLe_setSession_risk _ _ _ _)
          (riskLe_trans (process_text_riskLe _ _ _) (riskLe_addInteraction _ _ _ _ _))
      · exact riskLe_trans (riskLe_setSession_risk _ _ _ _) (riskLe_addInteraction _ _ _ _ _)

lemma process_voice_session_risk (st : ControllerState) (request : AudioProcessRequest)
    (t : String) (agent : AgentResult) (ht : ¬ (t = "")) :
    session_risk (process_voice_interaction st request (Except.ok t) agent).1
        request.session_id =
      some (max (prevAggregate st request.session_id) (assess_text_risk t)) := by
  unfold process_voice_interaction
  dsimp only []
  rw [if_neg ht, assess_risk_level_text]
  split
  · rw [session_risk_addInteraction, process_text_session_risk, prevAggregate_st2,
      max_assoc, max_self]
  · rw [session_risk_addInteraction]
    simp [session_risk, setSession, dictSet, gocs_risk st request.session_id "general"]

lemma riskLe_mmImageStep (st1 : ControllerState) (request : MultimodalRequest) (o : MMOracles) :
    riskLe st1 (mmImageStep st1 request o).1 := by
  unfold mmImageStep
  split
  · exact process_image_riskLe _ _ _ _
  · exact riskLe_refl _

lemma riskLe_mmVoiceStep (st1 : ControllerState) (request : MultimodalRequest) (o : MMOracles) :
    riskLe st1 (mmVoiceStep st1 request o).1 := by
  unfold mmVoiceStep
  split
  · exact process_voice_riskLe _ _ _ _
  · exact riskLe_refl _

lemma riskLe_mmTextStep (st2 : ControllerState) (request : MultimodalRequest) (o : MMOracles)
    (et : Option String) :
    riskLe st2 (mmTextStep st2 request o et).1 := by
  unfold mmTextStep
  split
  · exact process_text_riskLe _ _ _
  · exact riskLe_refl _

lemma process_multimodal_riskLe (st : ControllerState) (request : MultimodalRequest)
    (o : MMOracles) :
    riskLe st (process_multimodal_interaction st request o).1 := by
  have hst : (process_multimodal_interaction st request o).1 =
      addInteraction (mmTrace st request o).stAfter request.session_id .conversation
        ("Multimodal interaction: " ++ pyOr (mmTrace st request o).effective_text "No text")
        "multimodal" := rfl
  have htr : (mmTrace st request o).stAfter =
      (mmTextStep (mmVoiceStep (mmImageStep
          (get_or_create_session st request.session_id request.query_type).1 request o).1
          request o).1 request o
        (mmEffectiveText request.text
          (mmVoiceStep (mmImageStep
            (get_or_create_session st request.session_id request.query_type).1 request o).1
            request o).2)).1 := rfl
  rw [hst, htr]
  exact riskLe_trans (riskLe_gocs _ _ _)
    (riskLe_trans (riskLe_mmImageStep _ _ _)
      (riskLe_trans (riskLe_mmVoiceStep _ _ _)
        (riskLe_trans (riskLe_mmTextStep _ _ _ _) (riskLe_addInteraction _ _ _ _ _))))

lemma clear_session_active (st : ControllerState) (sid sid' : String) :
    (clear_session st sid).1.active_sessions sid' =
      if sid' = sid then none else st.active_sessions sid' := by
  unfold clear_session end_session
  cases h1 : st.chat_history sid <;>
    cases h2 : st.active_sessions sid <;>
      by_cases e : sid' = sid <;>
        simp_all [setChatHistory, dictSet, dictDel]

lemma clear_session_riskMono (st : ControllerState) (sid : String) :
    riskMono st (clear_session st sid).1 := by
  intro sid₀ s s' h h'
  rw [clear_session_active] at h'
  by_cases e : sid₀ = sid
  · rw [if_pos e] at h'
    exact Option.noConfusion h'
  · rw [if_neg e, h] at h'
    cases h'
    exact le_refl _

/-- C4: after every risk-carrying turn the session's aggregate risk equals
`max(previous aggregate, assessed level)` (text handler, and voice handler
over the transcription — the nested text call re-`max`es idempotently), and
no modelled operation ever decrements any session's aggregate risk. -/
theorem session_risk_max_semantics :
    (∀ (st : ControllerState) (request : Query) (agent : AgentResult),
      session_risk (process_text_interaction st request agent).1 request.session_id =
        some (max (prevAggregate st request.session_id) (assess_text_risk request.message))) ∧
    (∀ (st : ControllerState) (request : AudioProcessRequest) (t : String) (agent : AgentResult),
      ¬ (t = "") →
      session_risk (process_voice_interaction st request (Except.ok t) agent).1
          request.session_id =
        some (max (prevAggregate st request.session_id) (assess_text_risk t))) ∧
    (∀ (st : ControllerState) (request : Query) (agent : AgentResult),
      riskMono st (process_text_interaction st request agent).1) ∧
    (∀ (st : ControllerState) (request : ImageAnalysisRequest) (b64 : Option String)
      (groq : Except PyExc String),
      riskMono st (process_image_interaction st request b64 groq).1) ∧
    (∀ (st : ControllerState) (request : AudioProcessRequest) (tr : Except PyExc String)
      (agent : AgentResult),
      riskMono st (process_voice_interaction st request tr agent).1) ∧
    (∀ (st : ControllerState) (request : MultimodalRequest) (o : MMOracles),
      riskMono st (process_multimodal_interaction st request o).1) ∧
    (∀ (st : ControllerState) (sid : String), riskMono st (clear_session st sid).1) :=
  ⟨process_text_session_risk,
   process_voice_session_risk,
   fun st request agent => riskLe_riskMono (process_text_riskLe st request agent),
   fun st request b64 groq => riskLe_riskMono (process_image_riskLe st request b64 groq),
   fun st request tr agent => riskLe_riskMono (process_voice_riskLe st request tr agent),
   fun st request o => riskLe_riskMono (process_multimodal_riskLe st request o),
   clear_session_riskMono⟩

/-- Witness for C4 at concrete inputs: a voice turn over a high-risk
transcription raises a fresh session's aggregate from 1 to 5; a later
low-risk text turn leaves an aggregate of 3 at 3. -/
theorem session_risk_max_semantics_witness :
    session_risk (process_voice_interaction initState
        { audio_path := "a.wav", session_id := "s1", transcription_only := false }
        (Except.ok "i want to die") (Except.ok ("None", "r"))).1 "s1" =
      some (max 1 5) ∧
    (3 : Int) ≤ 3 := by
  constructor
  · have h := session_risk_max_semantics.2.1 initState
      { audio_path := "a.wav", session_id := "s1", transcription_only := false }
      "i want to die" (Except.ok ("None", "r")) (by decide)
    rw [h]
    decide
  · have h := session_risk_max_semantics.2.2.1
      { active_sessions := fun sid => if sid = "s1" then
          some { session_id := "s1", session_type := "general", conversation_history := [],
                 risk_level := 3 } else none
        session_summaries := fun _ => none
        chat_history := fun sid => if sid = "s1" then
          some [ChatMsg.system SYSTEM_PROMPT] else none }
      { message := "hello", session_id := "s1" } (Except.ok ("None", "r")) "s1"
      { session_id := "s1", session_type := "general", conversation_history := [],
        risk_level := 3 }
      { session_id := "s1", session_type := "general", conversation_history := [{ itype := .conversation, content := "hello", modality := "text", tool_used := none }], risk_level := 3 }
      (by decide) (by decide)
    exact h

/-- Every path of `process_image_interaction` with a failing vision call (or
falsy base64) returns the fixed degraded response and sentinel analysis. -/
lemma process_image_error_cases (st : ControllerState) (request : ImageAnalysisRequest) :
    (∀ (b64 : Option String) (e : PyExc),
      (process_image_interaction st request b64 (Except.error e)).2 =
        (image_error_response, image_error_analysis request.image_path)) ∧
    (∀ (groq : Except PyExc String),
      (process_image_interaction st request none groq).2 =
        (image_error_response, image_error_analysis request.image_path)) := by
  constructor
  · intro b64 e
    unfold process_image_interaction
    dsimp only []
    split
    · rfl
    · split
      · rfl
      · rfl
  · intro groq
    rfl

/-- Every path of `process_voice_interaction` with a failing transcription
call (or empty transcription) returns the fixed degraded response and
sentinel analysis. -/
lemma process_voice_error_cases (st : ControllerState) (request : AudioProcessRequest)
    (agent : AgentResult) :
    (∀ (e : PyExc),
      (process_voice_interaction st request (Except.error e) agent).2 =
        (voice_error_response, voice_error_analysis request.audio_path)) ∧
    (process_voice_interaction st request (Except.ok "") agent).2 =
      (voice_error_response, voice_error_analysis request.audio_path) := by
  constructor
  · intro e
    rfl
  · unfold process_voice_interaction
    dsimp only []
    rw [if_pos rfl]

/-- C6: each modality handler converts any failure of its external capability
call into its fixed degraded response — confidence 0.0, apologetic content,
modality-appropriate response type — without propagating the exception (the
handlers are total functions of the oracle outcome), and a failing modality
does not abort multimodal composition: whenever the request carries text,
the text fragment is still produced and the composition is non-empty,
whatever the other oracles did. -/
theorem handler_failure_contract :
    (∀ (st : ControllerState) (request : Query) (e : PyExc),
      (process_text_interaction st request (Except.error e)).2 = text_error_response) ∧
    (∀ (st : ControllerState) (request : ImageAnalysisRequest) (b64 : Option String) (e : PyExc),
      (process_image_interaction st request b64 (Except.error e)).2.1 = image_error_response ∧
      (process_image_interaction st request b64 (Except.error e)).2.2 =
        image_error_analysis request.image_path) ∧
    (∀ (st : ControllerState) (request : AudioProcessRequest) (e : PyExc) (agent : AgentResult),
      (process_voice_interaction st request (Except.error e) agent).2.1 = voice_error_response ∧
      (process_voice_interaction st request (Except.error e) agent).2.2 =
        voice_error_analysis request.audio_path) ∧
    (text_error_response.confidence = 0 ∧ image_error_response.confidence = 0 ∧
      voice_error_response.confidence = 0) ∧
    (∀ (st : ControllerState) (request : MultimodalRequest) (o : MMOracles),
      truthy request.text = true →
      (mmTrace st request o).text_part.isSome ∧
      (mmTrace st request o).response_parts ≠ []) := by
  refine ⟨process_text_error_eq,
    fun st request b64 e => ?_,
    fun st request e agent => ?_,
    ⟨rfl, rfl, rfl⟩,
    fun st request o ht => ?_⟩
  · have h := (process_image_error_cases st request).1 b64 e
    exact ⟨by rw [h], by rw [h]⟩
  · have h := (process_voice_error_cases st request agent).1 e
    exact ⟨by rw [h], by rw [h]⟩
  · have het : truthy (mmTrace st request o).effective_text = true := by
      have : (mmTrace st request o).effective_text =
          mmEffectiveText request.text (mmVoiceStep (mmImageStep
            (get_or_create_session st request.session_id request.query_type).1 request o).1
            request o).2 := rfl
      rw [this]
      unfold mmEffectiveText
      split
      · rw [if_pos ht]
        exact ht
      · exact ht
    have htp : (mmTrace st request o).text_part =
        (mmTextStep (mmVoiceStep (mmImageStep
            (get_or_create_session st request.session_id request.query_type).1 request o).1
            request o).1 request o (mmTrace st request o).effective_text).2 := rfl
    have hs1 : (mmTrace st request o).text_part.isSome := by
      rw [htp]
      unfold mmTextStep
      rw [if_pos het]
      rfl
    refine ⟨hs1, ?_⟩
    obtain ⟨r, hr⟩ := Option.isSome_iff_exists.mp hs1
    have hp : (mmTrace st request o).response_parts =
        mmParts (mmTrace st request o).image_part (mmTrace st request o).voice_part
          (mmTrace st request o).text_part := rfl
    rw [hp]
    unfold mmParts
    rw [hr]
    simp

/-- C6 witness at concrete inputs: the text handler's degraded response, and
a multimodal call whose image oracle fails but whose text fragment survives. -/
theorem handler_failure_contract_witness :
    (process_text_interaction initState { message := "m", session_id := "w1" }
      (Except.error (PyExc.exc "x"))).2 = text_error_response ∧
    ((mmTrace initState
        { text := some "hi", image_path := some "p.png", audio_path := none,
          session_id := "w1", query_type := "general" }
        { image_base64 := none, image_groq := Except.error (PyExc.exc "img down"),
          transcription := Except.error (PyExc.exc "unused"),
          voice_agent := Except.error (PyExc.exc "unused"),
          text_agent := Except.ok ("None", "T") }).text_part.isSome ∧
      (mmTrace initState
        { text := some "hi", image_path := some "p.png", audio_path := none,
          session_id := "w1", query_type := "general" }
        { image_base64 := none, image_groq := Except.error (PyExc.exc "img down"),
          transcription := Except.error (PyExc.exc "unused"),
          voice_agent := Except.error (PyExc.exc "unused"),
          text_agent := Except.ok ("None", "T") }).response_parts ≠ []) :=
  ⟨handler_failure_contract.1 initState { message := "m", session_id := "w1" } (PyExc.exc "x"),
   handler_failure_contract.2.2.2.2 initState
     { text := some "hi", image_path := some "p.png", audio_path := none,
       session_id := "w1", query_type := "general" }
     { image_base64 := none, image_groq := Except.error (PyExc.exc "img down"),
       transcription := Except.error (PyExc.exc "unused"),
       voice_agent := Except.error (PyExc.exc "unused"),
       text_agent := Except.ok ("None", "T") } (by decide)⟩

lemma text_conf_nonneg (st : ControllerState) (request : Query) (agent : AgentResult) :
    0 ≤ (process_text_interaction st request agent).2.confidence := by
  obtain e | ⟨tool, ai⟩ := agent
  · rw [process_text_error_eq]
    norm_num [text_error_response]
  · unfold process_text_interaction
    dsimp only []
    split
    · norm_num [text_error_response]
    · split <;> norm_num [text_error_response]

lemma image_conf_nonneg (st : ControllerState) (request : ImageAnalysisRequest)
    (b64 : Option String) (groq : Except PyExc String) :
    0 ≤ (process_image_interaction st request b64 groq).2.1.confidence := by
  unfold process_image_interaction
  dsimp only []
  split
  · norm_num [image_error_response]
  · split
    · norm_num [image_error_response]
    · split <;> norm_num [image_error_response]

lemma voice_conf_nonneg (st : ControllerState) (request : AudioProcessRequest)
    (tr : Except PyExc String) (agent : AgentResult) :
    0 ≤ (process_voice_interaction st request tr agent).2.1.confidence := by
  unfold process_voice_interaction
  dsimp only []
  split
  · norm_num [voice_error_response]
  · split
    · norm_num [voice_error_response]
    · split
      · exact text_conf_nonneg _ _ _
      · norm_num

lemma mm_image_conf_nonneg (st : ControllerState) (request : MultimodalRequest) (o : MMOracles) :
    0 ≤ optConf (mmTrace st request o).image_part := by
  show 0 ≤ optConf (mmImageStep _ request o).2
  unfold mmImageStep
  split
  · exact image_conf_nonneg _ _ _ _
  · exact le_refl 0

lemma mmConfidence_eq (ip : Option TherapeuticResponse)
    (vp : Option (TherapeuticResponse × VoiceAnalysisResult)) (tp : Option TherapeuticResponse) :
    mmConfidence ip vp tp =
      max (max (max 0 (optConf ip)) (optConf (vp.map Prod.fst))) (optConf tp) := by
  cases ip <;> cases vp <;> cases tp <;> rfl

lemma mmEmergency_eq (vp : Option (TherapeuticResponse × VoiceAnalysisResult))
    (tp : Option TherapeuticResponse) :
    mmEmergency vp tp = (optFlag (vp.map Prod.fst) || optFlag tp) := by
  cases vp <;> cases tp <;> rfl

lemma mmTools_eq (ip : Option TherapeuticResponse)
    (vp : Option (TherapeuticResponse × VoiceAnalysisResult)) (tp : Option TherapeuticResponse) :
    mmTools ip vp tp = optTools ip ++ optTools (vp.map Prod.fst) ++ optTools tp := by
  cases ip <;> cases vp <;> cases tp <;> rfl

lemma mmParts_eq (ip : Option TherapeuticResponse)
    (vp : Option (TherapeuticResponse × VoiceAnalysisResult)) (tp : Option TherapeuticResponse) :
    mmParts ip vp tp =
      optFragment "Image Analysis: " ip ++
      optFragment "Voice Analysis: " (vp.map Prod.fst) ++
      optFragment "AI Response: " tp := by
  cases ip <;> cases vp <;> cases tp <;> rfl

/-- C7: the composed multimodal response's confidence is the maximum over
the fragments' confidences, its emergency flag is the OR of the fragments'
flags (the image fragment's flag is provably always `False`, so dropping it
in the code is extensionally the full OR), its tool list contains exactly
the union of the fragments' tool lists, and an audio input without separate
text substitutes the transcription as the text-step input. -/
theorem multimodal_composition (st : ControllerState) (request : MultimodalRequest)
    (o : MMOracles) :
    ((process_multimodal_interaction st request o).2.confidence =
      max (max (optConf (mmTrace st request o).image_part)
        (optConf ((mmTrace st request o).voice_part.map Prod.fst)))
        (optConf (mmTrace st request o).text_part)) ∧
    ((process_multimodal_interaction st request o).2.emergency_flag =
      (optFlag (mmTrace st request o).image_part ||
       optFlag ((mmTrace st request o).voice_part.map Prod.fst) ||
       optFlag (mmTrace st request o).text_part)) ∧
    (∀ tool : String, tool ∈ (process_multimodal_interaction st request o).2.tools_used ↔
      (tool ∈ optTools (mmTrace st request o).image_part ∨
       tool ∈ optTools ((mmTrace st request o).voice_part.map Prod.fst) ∨
       tool ∈ optTools (mmTrace st request o).text_part)) ∧
    (truthy request.audio_path = true → truthy request.text = false →
      ∃ vp, (mmTrace st request o).voice_part = some vp ∧
        (mmTrace st request o).effective_text = some vp.2.transcription) := by
  have hconf : (process_multimodal_interaction st request o).2.confidence =
      mmConfidence (mmTrace st request o).image_part (mmTrace st request o).voice_part
        (mmTrace st request o).text_part := rfl
  have hflag : (process_multimodal_interaction st request o).2.emergency_flag =
      mmEmergency (mmTrace st request o).voice_part (mmTrace st request o).text_part := rfl
  have htools : (process_multimodal_interaction st request o).2.tools_used =
      (mmTools (mmTrace st request o).image_part (mmTrace st request o).voice_part
        (mmTrace st request o).text_part).dedup := rfl
  refine ⟨?_, ?_, ?_, ?_⟩
  · rw [hconf, mmConfidence_eq, max_eq_right (mm_image_conf_nonneg st request o)]
  · rw [hflag, mmEmergency_eq, mm_image_part_flag]
    simp
  · intro tool
    rw [htools, List.mem_dedup, mmTools_eq]
    simp [or_assoc]
  · intro haudio htext
    have hvp : (mmTrace st request o).voice_part =
        (mmVoiceStep (mmImageStep
          (get_or_create_session st request.session_id request.query_type).1 request o).1
          request o).2 := rfl
    have het : (mmTrace st request o).effective_text =
        mmEffectiveText request.text (mmTrace st request o).voice_part := rfl
    refine ⟨(process_voice_interaction (mmImageStep
        (get_or_create_session st request.session_id request.query_type).1 request o).1
        { audio_path := request.audio_path.getD "", session_id := request.session_id,
          transcription_only := false }
        o.transcription o.voice_agent).2, ?_, ?_⟩
    · rw [hvp]
      unfold mmVoiceStep
      rw [if_pos haudio]
    · rw [het, hvp]
      unfold mmVoiceStep
      rw [if_pos haudio]
      simp [mmEffectiveText, htext]

/-- C7 witness: a multimodal request carrying only audio substitutes the
transcription into the text step. -/
theorem multimodal_composition_witness :
    ∃ vp, (mmTrace initState
        { text := none, image_path := none, audio_path := some "a.wav",
          session_id := "w2", query_type := "general" }
        { image_base64 := none, image_groq := Except.error (PyExc.exc "unused"),
          transcription := Except.ok "tell me about stress",
          voice_agent := Except.ok ("None", "V"),
          text_agent := Except.ok ("None", "T") }).voice_part = some vp ∧
      (mmTrace initState
        { text := none, image_path := none, audio_path := some "a.wav",
          session_id := "w2", query_type := "general" }
        { image_base64 := none, image_groq := Except.error (PyExc.exc "unused"),
          transcription := Except.ok "tell me about stress",
          voice_agent := Except.ok ("None", "V"),
          text_agent := Except.ok ("None", "T") }).effective_text =
        some vp.2.transcription :=
  (multimodal_composition initState
    { text := none, image_path := none, audio_path := some "a.wav",
      session_id := "w2", query_type := "general" }
    { image_base64 := none, image_groq := Except.error (PyExc.exc "unused"),
      transcription := Except.ok "tell me about stress",
      voice_agent := Except.ok ("None", "V"),
      text_agent := Except.ok ("None", "T") }).2.2.2 (by decide) (by decide)

/-- C8 counterexample: an image+text composition's content is the fragments
joined by the literal four-character sequence backslash-n-backslash-n (the
Python source writes `"\\n\\n"`), and contains no newline character at all —
so the fragments are not concatenated with a double line break. -/
theorem multimodal_separator_counterexample :
    (process_multimodal_interaction initState
      { text := some "hello", image_path := some "img.png", audio_path := none,
        session_id := "s1", query_type := "general" }
      { image_base64 := some "x", image_groq := Except.ok "A",
        transcription := Except.error (PyExc.exc "unused"),
        voice_agent := Except.error (PyExc.exc "unused"),
        text_agent := Except.ok ("None", "B") }).2.content =
      "Image Analysis: A\\n\\nAI Response: B" ∧
    ¬ ('\n' ∈ (process_multimodal_interaction initState
      { text := some "hello", image_path := some "img.png", audio_path := none,
        session_id := "s1", query_type := "general" }
      { image_base64 := some "x", image_groq := Except.ok "A",
        transcription := Except.error (PyExc.exc "unused"),
        voice_agent := Except.error (PyExc.exc "unused"),
        text_agent := Except.ok ("None", "B") }).2.content.data) := by
  constructor
  · decide
  · decide

/-- C8 (amended): fragments appear in the fixed order image, audio, text —
never reordered — joined by the separator the source actually uses: the
literal four characters backslash n backslash n (an escaped `"\\n\\n"`,
not a double line break); a request with no truthy input yields the single
fixed no-input response. -/
theorem multimodal_order_amended (st : ControllerState) (request : MultimodalRequest)
    (o : MMOracles) :
    ((mmTrace st request o).response_parts =
      optFragment "Image Analysis: " (mmTrace st request o).image_part ++
      optFragment "Voice Analysis: " ((mmTrace st request o).voice_part.map Prod.fst) ++
      optFragment "AI Response: " (mmTrace st request o).text_part) ∧
    ((mmTrace st request o).response_parts ≠ [] →
      (process_multimodal_interaction st request o).2.content =
        String.intercalate MM_SEP (mmTrace st request o).response_parts) ∧
    MM_SEP.data = ['\\', 'n', '\\', 'n'] ∧
    (truthy request.image_path = false → truthy request.audio_path = false →
      truthy request.text = false →
      (process_multimodal_interaction st request o).2.content =
        "I didn\x27t receive any input to process.") := by
  have hparts : (mmTrace st request o).response_parts =
      mmParts (mmTrace st request o).image_part (mmTrace st request o).voice_part
        (mmTrace st request o).text_part := rfl
  have hcontent : (process_multimodal_interaction st request o).2.content =
      (if (mmTrace st request o).response_parts.isEmpty
       then "I didn\x27t receive any input to process."
       else String.intercalate MM_SEP (mmTrace st request o).response_parts) := rfl
  refine ⟨by rw [hparts, mmParts_eq], ?_, by decide, ?_⟩
  · intro hne
    rw [hcontent, if_neg (by simpa [List.isEmpty_iff] using hne)]
  · intro h1 h2 h3
    have hip : (mmTrace st request o).image_part = none := by
      show (mmImageStep _ request o).2 = none
      unfold mmImageStep
      rw [if_neg (by rw [h1]; exact Bool.false_ne_true)]
    have hvp : (mmTrace st request o).voice_part = none := by
      show (mmVoiceStep _ request o).2 = none
      unfold mmVoiceStep
      rw [if_neg (by rw [h2]; exact Bool.false_ne_true)]
    have het : (mmTrace st request o).effective_text = request.text := by
      have h : (mmTrace st request o).effective_text =
          mmEffectiveText request.text (mmTrace st request o).voice_part := rfl
      rw [h, hvp]
      rfl
    have htp : (mmTrace st request o).text_part = none := by
      have h : (mmTrace st request o).text_part =
          (mmTextStep (mmVoiceStep (mmImageStep
            (get_or_create_session st request.session_id request.query_type).1 request o).1
            request o).1 request o (mmTrace st request o).effective_text).2 := rfl
      rw [h]
      unfold mmTextStep
      rw [het]
      rw [if_neg (by rw [h3]; exact Bool.false_ne_true)]
    rw [hcontent, hparts, hip, hvp, htp]
    rfl

/-- C8 witness: a request with no inputs at all yields the fixed no-input
response. -/
theorem multimodal_order_amended_witness :
    (process_multimodal_interaction initState
      { text := none, image_path := none, audio_path := none,
        session_id := "w3", query_type := "general" }
      { image_base64 := none, image_groq := Except.error (PyExc.exc "u"),
        transcription := Except.error (PyExc.exc "u"),
        voice_agent := Except.error (PyExc.exc "u"),
        text_agent := Except.error (PyExc.exc "u") }).2.content =
      "I didn\x27t receive any input to process." :=
  (multimodal_order_amended initState
    { text := none, image_path := none, audio_path := none,
      session_id := "w3", query_type := "general" }
    { image_base64 := none, image_groq := Except.error (PyExc.exc "u"),
      transcription := Except.error (PyExc.exc "u"),
      voice_agent := Except.error (PyExc.exc "u"),
      text_agent := Except.error (PyExc.exc "u") }).2.2.2 (by decide) (by decide) (by decide)

/-- C9: when premium synthesis is selected and available but fails, the
result is exactly the free (gTTS) provider's result — an audio reference,
not an error; the free path never consults the premium oracle (fallback is
one-directional); and when both fail the operation returns the empty string
with no further retry. -/
theorem voice_fallback (env : TTSEnv) :
    (env.elevenlabs_api_key = true →
      (env.elevenlabs_client = true ∨ env.elevenlabs_legacy = true) →
      (∀ e, env.premium_synthesis = Except.error e →
        generate_voice_response env true = pyOr (text_to_speech_gtts env) "")) ∧
    (∀ f e, env.gtts_synthesis = Except.ok f → f ≠ "" →
      env.premium_synthesis = Except.error e →
      generate_voice_response env true = f) ∧
    (∀ p1 p2 : Except PyExc String,
      generate_voice_response { env with premium_synthesis := p1 } false =
      generate_voice_response { env with premium_synthesis := p2 } false) ∧
    (∀ e1 e2, env.premium_synthesis = Except.error e1 → env.gtts_synthesis = Except.error e2 →
      generate_voice_response env true = "") := by
  refine ⟨fun hk hc e hp => ?_, fun f e hg hf hp => ?_, fun p1 p2 => rfl, fun e1 e2 hp hg => ?_⟩
  · unfold generate_voice_response text_to_speech_elevenlabs
    rw [hk, hp]
    rcases hc with hc | hc <;> simp [hc]
  · unfold generate_voice_response text_to_speech_elevenlabs text_to_speech_gtts
    rw [hp, hg]
    cases hk : env.elevenlabs_api_key <;>
      cases hcl : env.elevenlabs_client <;>
        cases hl : env.elevenlabs_legacy <;>
          simp [pyOr, hf]
  · unfold generate_voice_response text_to_speech_elevenlabs text_to_speech_gtts
    rw [hp, hg]
    cases hk : env.elevenlabs_api_key <;>
      cases hcl : env.elevenlabs_client <;>
        cases hl : env.elevenlabs_legacy <;>
          simp [pyOr]

/-- C9 witness: premium requested and failing, free provider succeeding. -/
theorem voice_fallback_witness :
    generate_voice_response
      { elevenlabs_api_key := true, elevenlabs_client := true, elevenlabs_legacy := false,
        premium_synthesis := Except.error (PyExc.exc "rate limited"),
        gtts_synthesis := Except.ok "/tmp/gtts.mp3" } true = "/tmp/gtts.mp3" :=
  (voice_fallback
    { elevenlabs_api_key := true, elevenlabs_client := true, elevenlabs_legacy := false,
      premium_synthesis := Except.error (PyExc.exc "rate limited"),
      gtts_synthesis := Except.ok "/tmp/gtts.mp3" }).2.1
    "/tmp/gtts.mp3" (PyExc.exc "rate limited") rfl (by decide) rfl

/-- C10 counterexample: clearing an existing session removes it from the
active store — it does not remain available in place under its identifier. -/
theorem clear_session_counterexample :
    ((clear_session
      { active_sessions := fun sid => if sid = "s1" then
          some { session_id := "s1", session_type := "therapy", conversation_history := [{ itype := .conversation, content := "hi", modality := "text", tool_used := none }], risk_level := 2 }
        else none
        session_summaries := fun _ => none
        chat_history := fun sid => if sid = "s1" then
          some [ChatMsg.system SYSTEM_PROMPT] else none }
      "s1").1.active_sessions "s1") = none := by
  decide

/-- C10 (amended): `clear_session` resets the identifier's chat history to
just the system prompt, then summarizes and REMOVES an existing session
(returning `true`; `false` when none exists) — the session is not available
under the identifier afterwards, and all other identifiers are untouched. -/
theorem clear_session_amended (st : ControllerState) (sid : String) :
    ((st.active_sessions sid).isSome →
      (clear_session st sid).2 = true ∧
      (clear_session st sid).1.active_sessions sid = none ∧
      ((clear_session st sid).1.session_summaries sid).isSome) ∧
    (st.active_sessions sid = none →
      (clear_session st sid).2 = false ∧
      (clear_session st sid).1.active_sessions sid = none ∧
      (clear_session st sid).1.session_summaries sid = st.session_summaries sid) ∧
    ((st.chat_history sid).isSome →
      (clear_session st sid).1.chat_history sid = some [ChatMsg.system SYSTEM_PROMPT]) ∧
    (st.chat_history sid = none →
      (clear_session st sid).1.chat_history sid = none) ∧
    (∀ sid', sid' ≠ sid →
      (clear_session st sid).1.active_sessions sid' = st.active_sessions sid' ∧
      (clear_session st sid).1.chat_history sid' = st.chat_history sid' ∧
      (clear_session st sid).1.session_summaries sid' = st.session_summaries sid') := by
  refine ⟨fun hs => ?_, fun hs => ?_, fun hc => ?_, fun hc => ?_, fun sid' hne => ?_⟩
  · obtain ⟨session, hsv⟩ := Option.isSome_iff_exists.mp hs
    unfold clear_session end_session
    cases hch : st.chat_history sid <;>
      simp_all [setChatHistory, dictSet, dictDel]
  · unfold clear_session end_session
    cases hch : st.chat_history sid <;>
      simp_all [setChatHistory, dictSet, dictDel]
  · obtain ⟨hist, hcv⟩ := Option.isSome_iff_exists.mp hc
    unfold clear_session end_session
    cases hs : st.active_sessions sid <;>
      simp_all [setChatHistory, dictSet, dictDel]
  · unfold clear_session end_session
    cases hs : st.active_sessions sid <;>
      simp_all [setChatHistory, dictSet, dictDel]
  · unfold clear_session end_session
    cases hch : st.chat_history sid <;>
      cases hs : st.active_sessions sid <;>
        simp_all [setChatHistory, dictSet, dictDel]

/-- C10 witness: clearing an existing session returns true and stores a
summary; clearing an unknown identifier returns false. -/
theorem clear_session_amended_witness :
    ((clear_session
      { active_sessions := fun sid => if sid = "s1" then
          some { session_id := "s1", session_type := "therapy", conversation_history := [], risk_level := 2 }
        else none
        session_summaries := fun _ => none
        chat_history := fun sid => if sid = "s1" then
          some [ChatMsg.system SYSTEM_PROMPT] else none }
      "s1").2 = true ∧
     (clear_session
      { active_sessions := fun sid => if sid = "s1" then
          some { session_id := "s1", session_type := "therapy", conversation_history := [], risk_level := 2 }
        else none
        session_summaries := fun _ => none
        chat_history := fun sid => if sid = "s1" then
          some [ChatMsg.system SYSTEM_PROMPT] else none }
      "s1").1.active_sessions "s1" = none ∧
     ((clear_session
      { active_sessions := fun sid => if sid = "s1" then
          some { session_id := "s1", session_type := "therapy", conversation_history := [], risk_level := 2 }
        else none
        session_summaries := fun _ => none
        chat_history := fun sid => if sid = "s1" then
          some [ChatMsg.system SYSTEM_PROMPT] else none }
      "s1").1.session_summaries "s1").isSome) ∧
    (clear_session initState "never-seen-id").2 = false :=
  ⟨(clear_session_amended
      { active_sessions := fun sid => if sid = "s1" then
          some { session_id := "s1", session_type := "therapy", conversation_history := [], risk_level := 2 }
        else none
        session_summaries := fun _ => none
        chat_history := fun sid => if sid = "s1" then
          some [ChatMsg.system SYSTEM_PROMPT] else none }
      "s1").1 (by decide),
   ((clear_session_amended initState "never-seen-id").2.1 (by decide)).1⟩

end SafeSpace
